import Mathlib

/-
  Verification of the RBI press-release scraper (scripts/rbi_scraper.py).

  The Python source is shallowly embedded below: pure functions become Lean
  functions, the traversal-scoped header-date state of the row extractor
  becomes an explicit accumulator, Python exceptions become Option results,
  and the orchestrator (`main`) becomes a function from its external inputs
  (fetch outcome, loaded master store, clock value) to its observable
  outputs (exit status, new-entries JSON artifact, master store contents).

  External collaborators that are not part of the repository (the CPython
  regex engine, `dateutil.parser.parse`, `urllib.parse.urljoin`, `hashlib`)
  are modelled directly: the three regexes of the scraper are implemented
  with their exact leftmost-match backtracking semantics (restricted to
  ASCII text), SHA-256 is implemented in full, and the dateutil / urljoin
  models are documented at their definitions.
-/

-- ---------------------------------------------------------------------------
-- Python string primitives (ASCII model).
-- ---------------------------------------------------------------------------

/-- Characters treated as whitespace by Python's `str.split` / `str.strip`
(ASCII fragment of the Python whitespace set). -/
def isPySpace (c : Char) : Bool :=
  c == ' ' || c == '\t' || c == '\n' || c == '\x0d' || c == '\x0b' || c == '\x0c'

/-- Python `s.strip()` (ASCII whitespace). -/
def pyStrip (s : String) : String :=
  String.mk (((s.data.dropWhile isPySpace).reverse.dropWhile isPySpace).reverse)

/-- Splitter on a character class, discarding empty pieces; `cur` holds the
current token reversed. -/
def splitDropGo (p : Char → Bool) (cur : List Char) : List Char → List String
  | [] => if cur.isEmpty then [] else [String.mk cur.reverse]
  | c :: t =>
    if p c then
      if cur.isEmpty then splitDropGo p [] t
      else String.mk cur.reverse :: splitDropGo p [] t
    else splitDropGo p (c :: cur) t

/-- Python `s.split()` with no argument: split on whitespace runs, no empties. -/
def pySplitWs (s : String) : List String := splitDropGo isPySpace [] s.data

/-- Python `s.lower()` (ASCII model). -/
def pyLower (s : String) : String := String.mk (s.data.map Char.toLower)

/-- Python `" ".join(s.lower().split())`: lower-case and collapse whitespace. -/
def normWs (s : String) : String := String.intercalate " " (pySplitWs s)

/-- Python `x or dflt` for an optional string: `None` and `""` are falsy. -/
def pyOrStr (o : Option String) (dflt : String) : String :=
  match o with
  | none => dflt
  | some s => if s == "" then dflt else s

/-- Python truthiness of an optional string (`None` and `""` are falsy). -/
def pyTruthy (o : Option String) : Bool :=
  match o with
  | none => false
  | some s => s != ""

/-- Case-sensitive list prefix test. -/
def hasPfx : List Char → List Char → Bool
  | [], _ => true
  | _ :: _, [] => false
  | p :: ps, c :: cs => p == c && hasPfx ps cs

/-- Case-insensitive prefix test; the pattern is given lower-case. -/
def hasPfxCI : List Char → List Char → Bool
  | [], _ => true
  | _ :: _, [] => false
  | p :: ps, c :: cs => p == c.toLower && hasPfxCI ps cs

/-- Python `needle in hay` substring test. -/
def containsSub : List Char → List Char → Bool
  | [], needle => needle.isEmpty
  | c :: t, needle => hasPfx needle (c :: t) || containsSub t needle

def strContains (hay needle : String) : Bool := containsSub hay.data needle.data

def startsWithStr (s pfx : String) : Bool := hasPfx pfx.data s.data

/-- Python word character (`\w`, ASCII model): letters, digits, underscore. -/
def isWordC (c : Char) : Bool := c.isAlphanum || c == '_'

-- ---------------------------------------------------------------------------
-- The three regexes of the scraper (rbi_scraper.py:47-54), implemented with
-- CPython `re.search` semantics: leftmost start position, greedy quantifiers
-- with backtracking.
-- ---------------------------------------------------------------------------

/-- True when the first `n` characters exist and are digits (`\d{n}`). -/
def takeDigits (l : List Char) (n : Nat) : Bool :=
  (l.take n).length == n && (l.take n).all Char.isDigit

/-- Month-name variants of `_MONTH_REGEX`, in the alternation order of the
pattern, longer (greedy) variant first within each alternative. -/
def monthVariants : List String :=
  ["january", "jan", "february", "feb", "march", "mar", "april", "apr",
   "may", "june", "jun", "july", "jul", "august", "aug",
   "september", "sept", "sep", "october", "oct", "november", "nov",
   "december", "dec"]

/-- Tail `[.,]?\s*\d{4}` of `_MONTH_REGEX` at the start of `l`; returns the
matched length. -/
def monthTail (l : List Char) : Option Nat :=
  let noPunct : List Char → Option Nat := fun l2 =>
    let k := (l2.takeWhile isPySpace).length
    if takeDigits (l2.drop k) 4 then some (k + 4) else none
  match l with
  | c :: rest =>
    if c == '.' || c == ',' then
      match noPunct rest with
      | some n => some (n + 1)
      | none => noPunct (c :: rest)
    else noPunct (c :: rest)
  | [] => noPunct []

/-- Month name followed by `monthTail`, at the start of `l`. -/
def monthNameTail (l : List Char) : Option Nat :=
  monthVariants.findSome? (fun v =>
    if hasPfxCI v.data l then (monthTail (l.drop v.length)).map (fun n => v.length + n)
    else none)

/-- Full `_MONTH_REGEX` body `(?:\d{1,2}\s+)?(month)[.,]?\s*\d{4}` at the
start of `l`: optional greedy day prefix (two digits preferred), then month
name and tail. -/
def monthFullAt (l : List Char) : Option Nat :=
  let viaDay : Nat → List Nat := fun n =>
    if takeDigits l n then
      let sp := ((l.drop n).takeWhile isPySpace).length
      if sp ≥ 1 then [n + sp] else []
    else []
  ((viaDay 2 ++ viaDay 1) ++ [0]).findSome? (fun off =>
    (monthNameTail (l.drop off)).map (fun n => off + n))

/-- Generic leftmost search: first position where `f` matches, with the pair
(start index, value returned by `f`). -/
def searchAt (f : List Char → Option Nat) : Nat → List Char → Option (Nat × Nat)
  | i, [] =>
    match f [] with
    | some n => some (i, n)
    | none => none
  | i, c :: t =>
    match f (c :: t) with
    | some n => some (i, n)
    | none => searchAt f (i + 1) t

/-- `_MONTH_REGEX.search(s)`: the matched substring (`group(0)`), if any. -/
def monthSearch (s : String) : Option String :=
  (searchAt monthFullAt 0 s.data).map (fun p => String.mk ((s.data.drop p.1).take p.2))

/-- Trailing `\d{2,4}` of `_DATE_NUMERIC`, greedy. -/
def numLast (l : List Char) : Option Nat :=
  [4, 3, 2].findSome? (fun n => if takeDigits l n then some n else none)

def isSepC (c : Char) : Bool := c == '/' || c == '-'

/-- Middle `\d{1,2}[sep]\d{2,4}` of `_DATE_NUMERIC`. -/
def numMid (l : List Char) : Option Nat :=
  [2, 1].findSome? (fun n =>
    if takeDigits l n then
      match l.drop n with
      | c :: rest => if isSepC c then (numLast rest).map (fun m => n + 1 + m) else none
      | [] => none
    else none)

/-- `_DATE_NUMERIC` body `\d{1,2}[/\-]\d{1,2}[/\-]\d{2,4}` at start of `l`. -/
def numFullAt (l : List Char) : Option Nat :=
  [2, 1].findSome? (fun n =>
    if takeDigits l n then
      match l.drop n with
      | c :: rest => if isSepC c then (numMid rest).map (fun m => n + 1 + m) else none
      | [] => none
    else none)

/-- `_DATE_NUMERIC.search(s)`: matched substring, if any. -/
def dateNumericSearch (s : String) : Option String :=
  (searchAt numFullAt 0 s.data).map (fun p => String.mk ((s.data.drop p.1).take p.2))

def digitsToNat (l : List Char) : Nat :=
  l.foldl (fun a c => 10 * a + (c.toNat - 48)) 0

/-- `_YEAR_RANGE_REGEX` body `(\d{4})\s*[-–]\s*(\d{2,4})` at the start of `l`;
returns `int(group(1))`. -/
def yearRangeAt (l : List Char) : Option Nat :=
  if takeDigits l 4 then
    let rest := l.drop 4
    let r2 := rest.drop ((rest.takeWhile isPySpace).length)
    match r2 with
    | c :: r3 =>
      if c == '-' || c == '–' then
        let r4 := r3.drop ((r3.takeWhile isPySpace).length)
        if [4, 3, 2].any (fun n => takeDigits r4 n) then some (digitsToNat (l.take 4))
        else none
      else none
    | [] => none
  else none

/-- `_YEAR_RANGE_REGEX.search(s)`: `int(group(1))` of the first match. -/
def yearRangeSearch (s : String) : Option Nat :=
  (searchAt yearRangeAt 0 s.data).map (fun p => p.2)

/-- `re.search(r'\b\d{4}\b', s)` at one position: four digits with word
boundaries on both sides (`prev` is the character before the position). -/
def bare4At (prev : Option Char) (l : List Char) : Bool :=
  takeDigits l 4 &&
    (match prev with
     | none => true
     | some c => !isWordC c) &&
    (match l.drop 4 with
     | [] => true
     | c :: _ => !isWordC c)

def bare4Go (prev : Option Char) : List Char → Bool
  | [] => false
  | c :: t => bare4At prev (c :: t) || bare4Go (some c) t

def bare4Search (s : String) : Bool := bare4Go none s.data

-- ---------------------------------------------------------------------------
-- looks_like_date (rbi_scraper.py:57-67).
-- ---------------------------------------------------------------------------

def looks_like_date (text : String) : Bool :=
  if text == "" then false
  else
    let t := pyStrip text
    if (monthSearch t).isSome then true
    else if (dateNumericSearch t).isSome then true
    else if bare4Search t && t.length ≤ 12 then true
    else false

-- ---------------------------------------------------------------------------
-- Date parsing. `dateutil.parser.parse` is an external library; it is
-- modelled below, restricted to the complete-date grammars the scraper feeds
-- it (day+month-name+year in either order, and slash/dash numeric triples
-- with the default US month-first interpretation). Inputs outside these
-- grammars (including day-less fragments, whose dateutil result would depend
-- on the current clock) are modelled as a parse failure (`none` = raised
-- exception, which the scraper catches).
-- ---------------------------------------------------------------------------

def monthNameToNum (s : String) : Option Nat :=
  let t := pyLower s
  if t == "jan" || t == "january" then some 1
  else if t == "feb" || t == "february" then some 2
  else if t == "mar" || t == "march" then some 3
  else if t == "apr" || t == "april" then some 4
  else if t == "may" then some 5
  else if t == "jun" || t == "june" then some 6
  else if t == "jul" || t == "july" then some 7
  else if t == "aug" || t == "august" then some 8
  else if t == "sep" || t == "sept" || t == "september" then some 9
  else if t == "oct" || t == "october" then some 10
  else if t == "nov" || t == "november" then some 11
  else if t == "dec" || t == "december" then some 12
  else none

def isLeap (y : Nat) : Bool := y % 4 == 0 && (y % 100 != 0 || y % 400 == 0)

def daysInMonth (y m : Nat) : Nat :=
  if m == 2 then (if isLeap y then 29 else 28)
  else if m == 4 || m == 6 || m == 9 || m == 11 then 30
  else 31

def allDigitsStr (s : String) : Bool := !s.data.isEmpty && s.data.all Char.isDigit

def toNatStr (s : String) : Nat := digitsToNat s.data

/-- dateutil two-digit years fall in the 2000 window for values below 50. -/
def expandYear (y : Nat) : Nat :=
  if y < 100 then (if y < 50 then 2000 + y else 1900 + y) else y

def validYMD (y m d : Nat) : Bool :=
  1 ≤ m && m ≤ 12 && 1 ≤ d && d ≤ daysInMonth y m && 1 ≤ y && y ≤ 9999

/-- Model of the external `dateutil.parser.parse` (see the section comment):
returns (year, month, day), or `none` for the exception the scraper catches.
The `fuzzy` flag makes no difference on the supported grammars. -/
def dateutil_parse (s : String) (_fuzzy : Bool) : Option (Nat × Nat × Nat) :=
  let toks := pySplitWs (String.mk (s.data.map (fun c => if c == ',' then ' ' else c)))
  match toks with
  | [a, b, c] =>
    match monthNameToNum a, monthNameToNum b with
    | some m, _ =>
      if allDigitsStr b && allDigitsStr c then
        let d := toNatStr b
        let y := expandYear (toNatStr c)
        if validYMD y m d then some (y, m, d) else none
      else none
    | none, some m =>
      if allDigitsStr a && allDigitsStr c then
        let d := toNatStr a
        let y := expandYear (toNatStr c)
        if validYMD y m d then some (y, m, d) else none
      else none
    | none, none => none
  | [t] =>
    let parts := splitDropGo isSepC [] t.data
    match parts with
    | [p, q, r] =>
      if allDigitsStr p && allDigitsStr q && allDigitsStr r then
        let a := toNatStr p
        let b := toNatStr q
        let y := expandYear (toNatStr r)
        if a ≤ 12 then (if validYMD y a b then some (y, a, b) else none)
        else if b ≤ 12 then (if validYMD y b a then some (y, b, a) else none)
        else none
      else none
    | _ => none
  | _ => none

def pad2 (n : Nat) : String := if n < 10 then "0" ++ toString n else toString n

def pad4 (n : Nat) : String :=
  if n < 10 then "000" ++ toString n
  else if n < 100 then "00" ++ toString n
  else if n < 1000 then "0" ++ toString n
  else toString n

/-- `datetime.strftime("%m-%d-%Y")`. -/
def renderMMDDYYYY (y m d : Nat) : String := pad2 m ++ "-" ++ pad2 d ++ "-" ++ pad4 y

-- parse_date_to_mmddyyyy (rbi_scraper.py:70-108). Each numbered step of the
-- Python function is one definition; a step falls through to the next when
-- its regex does not match or its parse raises (modelled by `none`).

/-- Step 4: fallback fuzzy parse of the whole fragment. -/
def pdStep4 (t : String) : Option String :=
  (dateutil_parse t true).map (fun p => renderMMDDYYYY p.1 p.2.1 p.2.2)

/-- Step 3: fiscal year range `2024-25` becomes January 1 of the first year
(`datetime(year, 1, 1)` raises for year 0, which falls through). -/
def pdStep3 (t : String) : Option String :=
  match yearRangeSearch t with
  | some y => if 1 ≤ y then some (renderMMDDYYYY y 1 1) else pdStep4 t
  | none => pdStep4 t

/-- Step 2: numeric `d/d/d`-shaped substring. -/
def pdStep2 (t : String) : Option String :=
  match dateNumericSearch t with
  | some frag =>
    match dateutil_parse frag true with
    | some p => some (renderMMDDYYYY p.1 p.2.1 p.2.2)
    | none => pdStep3 t
  | none => pdStep3 t

def parse_date_to_mmddyyyy (text : Option String) : Option String :=
  match text with
  | none => none
  | some s =>
    if s == "" then none
    else
      let t := pyStrip s
      match monthSearch t with
      | some frag =>
        match dateutil_parse frag false with
        | some p => some (renderMMDDYYYY p.1 p.2.1 p.2.2)
        | none => pdStep2 t
      | none => pdStep2 t

-- ---------------------------------------------------------------------------
-- URL joining. `requests.compat.urljoin` (= `urllib.parse.urljoin`) is an
-- external library; it is modelled below, restricted to the href shapes the
-- listing page produces: absolute http/https URLs are returned unchanged,
-- root-relative paths are resolved against the origin of the base and other
-- relative paths against the directory of the base, and an empty href yields
-- the base itself.
-- ---------------------------------------------------------------------------

def SOURCE_PAGE : String := "https://www.rbi.org.in/Scripts/BS_PressReleaseDisplay.aspx"

def baseOrigin (b : String) : String :=
  if startsWithStr b "https://" then
    "https://" ++ String.mk ((b.data.drop 8).takeWhile (fun c => c != '/'))
  else if startsWithStr b "http://" then
    "http://" ++ String.mk ((b.data.drop 7).takeWhile (fun c => c != '/'))
  else b

def baseDir (b : String) : String :=
  let kept := (b.data.reverse.dropWhile (fun c => c != '/')).reverse
  if kept.isEmpty then b else String.mk kept

/-- Model of the external `urllib.parse.urljoin` (see the section comment). -/
def urljoin (base rel : String) : String :=
  if rel == "" then base
  else if startsWithStr rel "http://" || startsWithStr rel "https://" then rel
  else if startsWithStr rel "/" then baseOrigin base ++ rel
  else baseDir base ++ rel

-- ---------------------------------------------------------------------------
-- slugify_for_filename (rbi_scraper.py:209-220).
-- ---------------------------------------------------------------------------

def isSlugOk (c : Char) : Bool := ('a' ≤ c && c ≤ 'z') || ('0' ≤ c && c ≤ '9')

/-- `re.sub(r'[^a-z0-9]+', '_', s)`: each maximal run of characters outside
`[a-z0-9]` becomes one underscore; the flag records being inside such a run. -/
def subNonAlnumGo (inRun : Bool) : List Char → List Char
  | [] => []
  | c :: t =>
    if isSlugOk c then c :: subNonAlnumGo false t
    else if inRun then subNonAlnumGo true t
    else '_' :: subNonAlnumGo true t

/-- `re.sub(r'__+', '_', s)`: runs of two or more underscores collapse. -/
def collapseUndGo (prevU : Bool) : List Char → List Char
  | [] => []
  | c :: t =>
    if c == '_' then
      if prevU then collapseUndGo true t else '_' :: collapseUndGo true t
    else c :: collapseUndGo false t

/-- Python `s.strip('_')`. -/
def stripUnd (l : List Char) : List Char :=
  ((l.dropWhile (fun c => c == '_')).reverse.dropWhile (fun c => c == '_')).reverse

def slugify_for_filename (s : String) (maxlen : Nat) : String :=
  if s == "" then ""
  else
    let s1 := pyLower s
    let s2 := subNonAlnumGo false s1.data
    let s3 := collapseUndGo false s2
    let s4 := stripUnd s3
    if s4.length > maxlen then String.mk (s4.take maxlen) else String.mk s4

-- ---------------------------------------------------------------------------
-- make_pdf_filename_from_title_and_date (rbi_scraper.py:223-234).
-- ---------------------------------------------------------------------------

/-- Python `s.rstrip("._-")`. -/
def rstripDotUndDash (s : String) : String :=
  String.mk ((s.data.reverse.dropWhile (fun c => c == '.' || c == '_' || c == '-')).reverse)

/-- Python `s.lower().endswith(".pdf")`. -/
def endsWithPdfLower (s : String) : Bool :=
  hasPfx (".pdf".data.reverse) ((pyLower s).data.reverse)

def make_pdf_filename_from_title_and_date (title date_mmdd : Option String) : String :=
  let base_title := pyOrStr title "rbi_press_release"
  let title_slug := slugify_for_filename base_title 100
  let date_part := pyOrStr date_mmdd "no-date"
  let filename := title_slug ++ "_" ++ date_part ++ ".pdf"
  if filename.length > 160 then
    let f2 := String.mk (filename.data.take 160)
    if endsWithPdfLower f2 then f2 else rstripDotUndDash f2 ++ ".pdf"
  else filename

-- ---------------------------------------------------------------------------
-- SHA-256 (`hashlib.sha256(...).hexdigest()`), implemented in full over the
-- UTF-8 bytes of the input. The round constants are the standard ones (the
-- fractional parts of the cube roots of the first 64 primes, scaled to 32
-- bits) and the initial state the fractional parts of the square roots of
-- the first 8 primes; the implementation matches the FIPS 180-4 test vectors
-- for "abc", "" and the 56-byte two-block message.
-- ---------------------------------------------------------------------------

def mask32 : Nat := 4294967295

def add32 (a b : Nat) : Nat := (a + b) % 4294967296

def rotr32 (n x : Nat) : Nat := ((x >>> n) ||| (x <<< (32 - n))) &&& mask32

def xor3 (a b c : Nat) : Nat := (a ^^^ b) ^^^ c

def chF (x y z : Nat) : Nat := (x &&& y) ^^^ ((x ^^^ mask32) &&& z)

def majF (x y z : Nat) : Nat := ((x &&& y) ^^^ (x &&& z)) ^^^ (y &&& z)

def bigS0 (x : Nat) : Nat := xor3 (rotr32 2 x) (rotr32 13 x) (rotr32 22 x)

def bigS1 (x : Nat) : Nat := xor3 (rotr32 6 x) (rotr32 11 x) (rotr32 25 x)

def smallS0 (x : Nat) : Nat := xor3 (rotr32 7 x) (rotr32 18 x) (x >>> 3)

def smallS1 (x : Nat) : Nat := xor3 (rotr32 17 x) (rotr32 19 x) (x >>> 10)

def kConst : List Nat :=
  [1116352408, 1899447441, 3049323471, 3921009573, 961987163, 1508970993, 2453635748, 2870763221,
   3624381080, 310598401, 607225278, 1426881987, 1925078388, 2162078206, 2614888103, 3248222580,
   3835390401, 4022224774, 264347078, 604807628, 770255983, 1249150122, 1555081692, 1996064986,
   2554220882, 2821834349, 2952996808, 3210313671, 3336571891, 3584528711, 113926993, 338241895,
   666307205, 773529912, 1294757372, 1396182291, 1695183700, 1986661051, 2177026350, 2456956037,
   2730485921, 2820302411, 3259730800, 3345764771, 3516065817, 3600352804, 4094571909, 275423344,
   430227734, 506948616, 659060556, 883997877, 958139571, 1322822218, 1537002063, 1747873779,
   1955562222, 2024104815, 2227730452, 2361852424, 2428436474, 2756734187, 3204031479, 3329325298]

def hInit : List Nat :=
  [1779033703, 3144134277, 1013904242, 2773480762, 1359893119, 2600822924, 528734635, 1541459225]

def bytesToWords : List Nat → List Nat
  | b0 :: b1 :: b2 :: b3 :: rest => ((((b0 <<< 8) ||| b1) <<< 8 ||| b2) <<< 8 ||| b3) :: bytesToWords rest
  | _ => []

def wExtend : Nat → List Nat → List Nat
  | 0, acc => acc
  | f+1, acc =>
    let n := acc.length
    let next := add32 (add32 (smallS1 (acc.getD (n - 2) 0)) (acc.getD (n - 7) 0))
                      (add32 (smallS0 (acc.getD (n - 15) 0)) (acc.getD (n - 16) 0))
    wExtend f (acc ++ [next])

structure H8 where
  a : Nat
  b : Nat
  c : Nat
  d : Nat
  e : Nat
  f : Nat
  g : Nat
  h : Nat

def roundStep (st : H8) (wk : Nat × Nat) : H8 :=
  let t1 := add32 (add32 st.h (bigS1 st.e)) (add32 (chF st.e st.f st.g) (add32 wk.1 wk.2))
  let t2 := add32 (bigS0 st.a) (majF st.a st.b st.c)
  ⟨add32 t1 t2, st.a, st.b, st.c, add32 st.d t1, st.e, st.f, st.g⟩

def compress (hs : List Nat) (chunk : List Nat) : List Nat :=
  let w := wExtend 48 (bytesToWords chunk)
  let init : H8 := ⟨hs.getD 0 0, hs.getD 1 0, hs.getD 2 0, hs.getD 3 0,
                    hs.getD 4 0, hs.getD 5 0, hs.getD 6 0, hs.getD 7 0⟩
  let fin := (w.zip kConst).foldl roundStep init
  [add32 (hs.getD 0 0) fin.a, add32 (hs.getD 1 0) fin.b, add32 (hs.getD 2 0) fin.c,
   add32 (hs.getD 3 0) fin.d, add32 (hs.getD 4 0) fin.e, add32 (hs.getD 5 0) fin.f,
   add32 (hs.getD 6 0) fin.g, add32 (hs.getD 7 0) fin.h]

def chunks64 : Nat → List Nat → List (List Nat)
  | 0, _ => []
  | _+1, [] => []
  | f+1, l => (l.take 64) :: chunks64 f (l.drop 64)

def padBytes (msg : List Nat) : List Nat :=
  let L := msg.length
  let z := (64 + 55 - (L % 64)) % 64
  let bitLen := 8 * L
  msg ++ [128] ++ List.replicate z 0 ++ (List.range 8).map (fun i => (bitLen >>> (56 - 8 * i)) % 256)

def sha256Words (msg : List Nat) : List Nat :=
  let padded := padBytes msg
  (chunks64 padded.length padded).foldl compress hInit

def hexDigitChar (n : Nat) : Char := if n < 10 then Char.ofNat (48 + n) else Char.ofNat (87 + n)

def wordToHex (w : Nat) : String :=
  String.mk ((List.range 8).map (fun i => hexDigitChar ((w >>> (28 - 4 * i)) &&& 15)))

def sha256hex (msg : List Nat) : String := String.join ((sha256Words msg).map wordToHex)

/-- UTF-8 encoding of one character (`str.encode("utf-8")`). -/
def utf8Bytes (c : Char) : List Nat :=
  let n := c.toNat
  if n < 128 then [n]
  else if n < 2048 then [192 + (n >>> 6), 128 + (n &&& 63)]
  else if n < 65536 then [224 + (n >>> 12), 128 + ((n >>> 6) &&& 63), 128 + (n &&& 63)]
  else [240 + (n >>> 18), 128 + ((n >>> 12) &&& 63), 128 + ((n >>> 6) &&& 63), 128 + (n &&& 63)]

def strBytes (s : String) : List Nat := (s.data.map utf8Bytes).flatten

-- ---------------------------------------------------------------------------
-- generate_id (rbi_scraper.py:273-276).
-- ---------------------------------------------------------------------------

/-- The string hashed by `generate_id`:
`"|".join([" ".join((title or "").lower().split()), link or "", date_ or ""])`. -/
def idInput (title link date_ : Option String) : String :=
  normWs (pyLower (pyOrStr title "")) ++ "|" ++ pyOrStr link "" ++ "|" ++ pyOrStr date_ ""

def generate_id (title link date_ : Option String) : String :=
  sha256hex (strBytes (idInput title link date_))

-- ---------------------------------------------------------------------------
-- HTML model. A table row is modelled by its observables as used by the
-- scraper: whether `tr.find("th")` succeeds, the cell texts of
-- `tr.find_all("td")` (each `td.get_text(" ", strip=True)`), the whole-row
-- text `tr.get_text(" ", strip=True)`, and the anchors of the row in
-- document order (`tr.find("a")` is the head, `tr.find_all("a", href=True)`
-- the sublist with an href). An anchor carries its optional href attribute,
-- its text (`a.get_text(" ", strip=True)`), and, when `a.find("img")`
-- succeeds, the (alt, src) pair of that image with `or ""` defaults applied.
-- ---------------------------------------------------------------------------

structure Anchor where
  href : Option String
  text : String
  img : Option (String × String)
deriving DecidableEq, Repr

structure Td where
  text : String
deriving DecidableEq, Repr

structure Tr where
  hasTh : Bool
  tds : List Td
  text : String
  anchors : List Anchor
deriving DecidableEq, Repr

/-- A table is its list of rows. -/
abbrev HtmlTable := List Tr

/-- `re.search(r'\bword\b', s, re.I)` for a fixed all-word-character word,
at one position (`prev` is the character before it). -/
def wordAtCI (w : List Char) (prev : Option Char) (l : List Char) : Bool :=
  hasPfxCI w l &&
    (match prev with
     | none => true
     | some c => !isWordC c) &&
    (match l.drop w.length with
     | [] => true
     | c :: _ => !isWordC c)

def wordGoCI (w : List Char) (prev : Option Char) : List Char → Bool
  | [] => false
  | c :: t => wordAtCI w prev (c :: t) || wordGoCI w (some c) t

def wordSearchCI (w s : String) : Bool := wordGoCI w.data none s.data

-- find_pdf_link_in_row (rbi_scraper.py:112-136): three priority passes over
-- the row's anchors that carry an href.

def hrefAnchors (tr : Tr) : List Anchor := tr.anchors.filter (fun a => a.href.isSome)

def find_pdf_link_in_row (tr : Tr) : Option String :=
  let withHref := hrefAnchors tr
  -- 1) anchors with ".pdf" in the (stripped, lowered) href
  match withHref.find? (fun a => strContains (pyLower (pyStrip (a.href.getD ""))) ".pdf") with
  | some a => some (urljoin SOURCE_PAGE (pyStrip (a.href.getD "")))
  | none =>
    -- 2) anchors wrapping an img whose alt or src mentions "pdf"
    match withHref.find? (fun a =>
        match a.img with
        | some p => strContains (pyLower p.1) "pdf" || strContains (pyLower p.2) "pdf"
        | none => false) with
    | some a => some (urljoin SOURCE_PAGE (pyStrip (a.href.getD "")))
    | none =>
      -- 3) anchors whose text matches \bpdf\b or \bkb\b and whose stripped
      -- href is non-empty (an empty href continues the loop)
      match withHref.find? (fun a =>
          (wordSearchCI "pdf" a.text || wordSearchCI "kb" a.text) &&
          pyStrip (a.href.getD "") != "") with
      | some a => some (urljoin SOURCE_PAGE (pyStrip (a.href.getD "")))
      | none => none

-- find_first_populated_table (rbi_scraper.py:146-151): the first table
-- containing at least one anchor.

def find_first_populated_table (tables : List HtmlTable) : Option HtmlTable :=
  tables.find? (fun t => t.any (fun tr => !tr.anchors.isEmpty))

-- ---------------------------------------------------------------------------
-- extract_rows_from_table (rbi_scraper.py:154-205).
-- ---------------------------------------------------------------------------

/-- One emitted tuple `(date_text, title, link, pdf_link)`. -/
structure RowTuple where
  date_text : Option String
  title : Option String
  link : Option String
  pdf_link : Option String
deriving DecidableEq, Repr

/-- Date-header detection for a row without anchors (rbi_scraper.py:166-179):
the row text, and failing that the first qualifying cell text, that is
date-like and at most 40 characters long becomes the new header date. -/
def classifyNoAnchor (tr : Tr) : Option String :=
  if looks_like_date tr.text && tr.text.length ≤ 40 then some tr.text
  else
    match tr.tds.find? (fun td => looks_like_date td.text && td.text.length ≤ 40) with
    | some td => some td.text
    | none => none

/-- Effective date text of an item row (rbi_scraper.py:189-199): carried
header date first, then the first date-like cell, then the title itself when
it contains a month-name fragment. -/
def itemDateText (tr : Tr) (cur : Option String) (title : Option String) : Option String :=
  let d2 :=
    if pyTruthy cur then cur
    else
      match tr.tds.find? (fun td => looks_like_date td.text) with
      | some td => some td.text
      | none => cur
  if pyTruthy d2 then d2
  else
    match title with
    | some tt => if pyTruthy (some tt) && (monthSearch tt).isSome then some tt else d2
    | none => d2

/-- The tuple emitted for an item row (rbi_scraper.py:181-201); the first
anchor supplies title and link. -/
def mkItemTuple (tr : Tr) (cur : Option String) : RowTuple :=
  match tr.anchors with
  | [] => ⟨none, none, none, none⟩
  | a :: _ =>
    let title : Option String := if a.text == "" then none else some a.text
    let title_href := pyStrip (a.href.getD "")
    let link : Option String :=
      if title_href != "" then some (urljoin SOURCE_PAGE title_href) else none
    let pdf_link := find_pdf_link_in_row tr
    ⟨itemDateText tr cur title, title, link, pdf_link⟩

/-- The row scan with its explicit state: the carried header date `cur` and
the number `count` of tuples already emitted (the Python loop appends and
then breaks once `len(results) >= limit`). -/
def extractAux : List Tr → Option String → Nat → Nat → List RowTuple
  | [], _, _, _ => []
  | tr :: rest, cur, count, limit =>
    if tr.hasTh then extractAux rest cur count limit
    else if tr.anchors.isEmpty then
      match classifyNoAnchor tr with
      | some d => extractAux rest (some d) count limit
      | none => extractAux rest cur count limit
    else
      let t := mkItemTuple tr cur
      if count + 1 ≥ limit then [t] else t :: extractAux rest cur (count + 1) limit

def extract_rows_from_table (tbl : HtmlTable) (limit : Nat) : List RowTuple :=
  extractAux tbl none 0 limit

-- ---------------------------------------------------------------------------
-- Master store and dedup (rbi_scraper.py:238-270, 340-377). A loaded master
-- row (CSV read with dtype=str) is modelled with Option fields: `none`
-- stands for a missing cell, which pandas loads as NaN — `pd.isna` is then
-- true, and `str(...)` of it yields the literal "nan".
-- ---------------------------------------------------------------------------

structure Record where
  id : String
  date : Option String
  title : Option String
  link : Option String
  pdf_link : Option String
  pdf_filename : String
  pdf_downloaded : Bool
  source_page : String
  created_at : String
deriving DecidableEq, Repr

/-- `norm(row.get("title", ""))` inside entry_exists: `""` for NaN, else
lower-cased and whitespace-collapsed. -/
def rowTitleNorm (t : Option String) : String :=
  match t with
  | none => ""
  | some s => normWs (pyLower s)

/-- `str(row.get("link", "")).strip()` inside entry_exists: `str` of NaN is
the literal "nan". -/
def rowLinkStr (l : Option String) : String :=
  match l with
  | none => "nan"
  | some s => pyStrip s

def entry_exists (df : List Record) (title link : Option String) : Bool :=
  let t := match title with | none => "" | some s => s
  let norm_title := normWs (pyLower t)
  let l := pyStrip (pyOrStr link "")
  df.any (fun row => rowTitleNorm row.title == norm_title && rowLinkStr row.link == l)

-- ---------------------------------------------------------------------------
-- main (rbi_scraper.py:285-393), as a function of its external inputs: the
-- fetch outcome (none = network/HTTP error), the loaded master store, and
-- the clock value used for created_at. Its observable outputs are the exit
-- status, the content written to the new-entries JSON artifact (an Option:
-- every branch of main writes it, so it is always `some`), and the master
-- store contents after the run.
-- ---------------------------------------------------------------------------

/-- One parsed item (rbi_scraper.py:314-334). -/
structure Item where
  date : Option String
  title : Option String
  link : Option String
  pdf_link : Option String
  pdf_filename : String
deriving DecidableEq, Repr

/-- Building one parsed item from a raw tuple (rbi_scraper.py:315-334):
normalize the date and derive the pdf filename only when a pdf link exists. -/
def buildItem (rt : RowTuple) : Item :=
  let parsed_date := parse_date_to_mmddyyyy rt.date_text
  let pdf_filename :=
    if pyTruthy rt.pdf_link then make_pdf_filename_from_title_and_date rt.title parsed_date
    else ""
  ⟨parsed_date, rt.title, rt.link, rt.pdf_link, pdf_filename⟩

/-- One JSON object of the new-entries artifact (rbi_scraper.py:368-376). -/
structure JsonItem where
  id : String
  title : Option String
  link : Option String
  pdf_link : Option String
  date : Option String
  pdf_filename : String
  source_page : String
deriving DecidableEq, Repr

def mkRecordOf (now : String) (it : Item) : Record :=
  ⟨generate_id it.title it.link it.date, it.date, it.title, it.link,
   it.pdf_link, it.pdf_filename, false, SOURCE_PAGE, now⟩

def mkJsonOf (it : Item) : JsonItem :=
  ⟨generate_id it.title it.link it.date, it.title, it.link, it.pdf_link,
   it.date, it.pdf_filename, SOURCE_PAGE⟩

/-- The dedup loop of main (rbi_scraper.py:340-377): each item is checked
against the loaded master store only (the store is not extended inside the
loop), and the retained items produce the new CSV rows and JSON items. -/
def processItems (master : List Record) (now : String) : List Item → List Record × List JsonItem
  | [] => ([], [])
  | it :: rest =>
    let tail := processItems master now rest
    if entry_exists master it.title it.link then tail
    else (mkRecordOf now it :: tail.1, mkJsonOf it :: tail.2)

structure RunResult where
  exitCode : Nat
  newJson : Option (List JsonItem)
  masterAfter : List Record
deriving DecidableEq, Repr

def MAX_ENTRIES : Nat := 10

def mainRun (fetch : Option (List HtmlTable)) (master : List Record) (now : String) : RunResult :=
  match fetch with
  | none => ⟨2, some [], master⟩
  | some tables =>
    match find_first_populated_table tables with
    | none => ⟨3, some [], master⟩
    | some tbl =>
      let raw := extract_rows_from_table tbl MAX_ENTRIES
      let parsed_items := raw.map buildItem
      let nw := processItems master now parsed_items
      if !nw.1.isEmpty then ⟨0, some nw.2, master ++ nw.1⟩
      else ⟨0, some [], master⟩


-- ---------------------------------------------------------------------------
-- Concrete fixtures and auxiliary predicates used by the theorems below.
-- ---------------------------------------------------------------------------

/-- A pair of same-run extracted tuples with equal normalized titles and
equal trimmed links but different raw date texts. -/
def tupDupA : RowTuple := ⟨some "Dec 12, 2025", some "A", some "https://ex.com/x.htm", none⟩

def tupDupB : RowTuple := ⟨some "12/13/2025", some " a ", some "https://ex.com/x.htm", none⟩

def rowHello : Tr := ⟨false, [⟨"Hello"⟩], "Hello", [⟨some "https://ex.com/a.htm", "Hello", none⟩]⟩

def tblHello : HtmlTable := [rowHello]

def recHello : Record :=
  ⟨"oldid", none, some "Hello", some "https://ex.com/a.htm", none, "", false, SOURCE_PAGE, "t0"⟩

/-- A row whose only anchor has no href and no text: the extractor still
emits a tuple for it, with title, link and raw date text all absent. -/
def rowBlankAnchor : Tr := ⟨false, [⟨""⟩], "", [⟨none, "", none⟩]⟩

/-- Rows whose first anchor (if any) has text or a non-blank href. -/
def anchorNonBlank (tr : Tr) : Bool :=
  match tr.anchors.head? with
  | some a => a.text != "" || pyStrip (a.href.getD "") != ""
  | none => true

def hdrRow : Tr := ⟨false, [⟨"5 Jan 2026"⟩], "5 Jan 2026", []⟩

def itemRowA : Tr :=
  ⟨false, [⟨"x"⟩], "A January 2024 report", [⟨some "a.htm", "A January 2024 report", none⟩]⟩

def itemRowB : Tr := ⟨false, [⟨"12/12/2024"⟩], "B", [⟨some "b.htm", "B", none⟩]⟩

def itemRowC : Tr := ⟨false, [⟨"y"⟩], "C", [⟨some "c.htm", "C", none⟩]⟩

/-- The shape of the date arguments main passes to the filename builder:
absent, or a rendered date of at most 10 characters. -/
def dateLenOk (d : Option String) : Bool :=
  match d with
  | none => true
  | some s => s.length ≤ 10

-- ---------------------------------------------------------------------------
-- Helper lemmas.
-- ---------------------------------------------------------------------------

set_option maxRecDepth 10000 in
/-- Validation of the SHA-256 embedding against the FIPS 180-4 test vector. -/
theorem sha256hex_abc_vector :
    sha256hex (strBytes "abc")
      = "ba7816bf8f01cfea414140de5dae2223b00361a396177a9cb410ff61f20015ad" := by decide

theorem pyOrStr_some_empty (s : String) : pyOrStr (some s) "" = s := by
  simp only [pyOrStr]
  split
  next h => exact (beq_iff_eq.mp h).symm
  next => rfl

theorem string_of_data_eq {a b : String} (h : a.data = b.data) : a = b := by
  cases a
  cases b
  cases h
  rfl

theorem string_data_append (a b : String) : (a ++ b).data = a.data ++ b.data := rfl

/-- The dedup loop is the filter by absence from the loaded master store. -/
theorem processItems_eq (master : List Record) (now : String) (items : List Item) :
    processItems master now items =
      ((items.filter (fun it => !entry_exists master it.title it.link)).map (mkRecordOf now),
       (items.filter (fun it => !entry_exists master it.title it.link)).map mkJsonOf) := by
  induction items with
  | nil => rfl
  | cons it rest ih =>
    by_cases h : entry_exists master it.title it.link
    · simp [processItems, ih, List.filter_cons, h]
    · simp [processItems, ih, List.filter_cons, h]

theorem slug_len_le (s : String) (m : Nat) : (slugify_for_filename s m).length ≤ m := by
  unfold slugify_for_filename
  split
  next => simp [String.length]
  next =>
    dsimp only
    split
    next => simp [String.length, List.length_take]
    next h =>
      simp only [String.length]
      omega

-- ---------------------------------------------------------------------------
-- C4
-- ---------------------------------------------------------------------------

/-- Claim C4: the Date Normalizer maps "12 Dec 2025", "Dec 12, 2025" and
"12/12/2025" to "12-12-2025", maps "2024-25" to "01-01-2024", maps an empty
or nonsensical fragment to `none`, and returns a value (never an exception,
modelled by totality of the `Option`-valued embedding) on every input. -/
theorem c4_date_normalizer_cases :
    parse_date_to_mmddyyyy (some "12 Dec 2025") = some "12-12-2025" ∧
    parse_date_to_mmddyyyy (some "Dec 12, 2025") = some "12-12-2025" ∧
    parse_date_to_mmddyyyy (some "12/12/2025") = some "12-12-2025" ∧
    parse_date_to_mmddyyyy (some "2024-25") = some "01-01-2024" ∧
    parse_date_to_mmddyyyy (some "") = none ∧
    parse_date_to_mmddyyyy none = none ∧
    parse_date_to_mmddyyyy (some "total gibberish!") = none ∧
    (∀ t : Option String, parse_date_to_mmddyyyy t = none ∨
        ∃ s, parse_date_to_mmddyyyy t = some s) := by
  refine ⟨by decide, by decide, by decide, by decide, by decide, rfl, by decide, ?_⟩
  intro t
  cases h : parse_date_to_mmddyyyy t with
  | none => exact Or.inl rfl
  | some s => exact Or.inr ⟨s, rfl⟩

-- ---------------------------------------------------------------------------
-- C8
-- ---------------------------------------------------------------------------

/-- Claim C8: a run never rewrites, mutates, deletes or reorders the loaded
master records: the master store after any run is the loaded store followed
by some (possibly empty) list of appended records. -/
theorem c8_master_append_only :
    ∀ (fetch : Option (List HtmlTable)) (master : List Record) (now : String),
      ∃ tail, (mainRun fetch master now).masterAfter = master ++ tail := by
  intro fetch master now
  cases fetch with
  | none => exact ⟨[], (List.append_nil master).symm⟩
  | some tables =>
    cases h : find_first_populated_table tables with
    | none =>
      refine ⟨[], ?_⟩
      simp [mainRun, h]
    | some tbl =>
      cases he : (processItems master now
          ((extract_rows_from_table tbl MAX_ENTRIES).map buildItem)).1.isEmpty with
      | true =>
        refine ⟨[], ?_⟩
        simp [mainRun, h, he]
      | false =>
        refine ⟨(processItems master now
            ((extract_rows_from_table tbl MAX_ENTRIES).map buildItem)).1, ?_⟩
        simp [mainRun, h, he]

-- ---------------------------------------------------------------------------
-- C9
-- ---------------------------------------------------------------------------

/-- Claim C9: with a document link present, title "RBI imposes penalty!!"
and rendered date "01-05-2025" yield the filename
"rbi_imposes_penalty_01-05-2025.pdf" (both for the filename builder itself
and through the item-building step of main); with no document link the
filename is the empty string for every title and date. -/
theorem c9_pdf_filename_cases :
    make_pdf_filename_from_title_and_date (some "RBI imposes penalty!!") (some "01-05-2025")
      = "rbi_imposes_penalty_01-05-2025.pdf" ∧
    (buildItem ⟨some "5 Jan 2025", some "RBI imposes penalty!!",
        some "https://ex.com/p.htm", some "https://ex.com/p.pdf"⟩).pdf_filename
      = "rbi_imposes_penalty_01-05-2025.pdf" ∧
    (∀ (dt t l : Option String), (buildItem ⟨dt, t, l, none⟩).pdf_filename = "") := by
  refine ⟨by decide, by decide, ?_⟩
  intro dt t l
  rfl

-- ---------------------------------------------------------------------------
-- C1
-- ---------------------------------------------------------------------------

/-- Claim C1 (counterexample): two items of the same run with equal
normalized titles, equal trimmed links and different raw date texts are BOTH
classified as new by the dedup loop when neither is in the master store —
the loop checks the pre-run store only, so "at most one of the pair is new"
fails. -/
theorem c1_intra_run_pair_both_new :
    normWs (pyLower (pyOrStr tupDupA.title "")) = normWs (pyLower (pyOrStr tupDupB.title "")) ∧
    pyStrip (pyOrStr tupDupA.link "") = pyStrip (pyOrStr tupDupB.link "") ∧
    tupDupA.date_text ≠ tupDupB.date_text ∧
    ¬ ((processItems [] "ts" [buildItem tupDupA, buildItem tupDupB]).2.length ≤ 1) := by
  refine ⟨by decide, by decide, by decide, by decide⟩

/-- Relates the title normalization applied to the query title inside
entry_exists to `rowTitleNorm`. -/
theorem queryTitleNorm_eq (title : Option String) :
    normWs (pyLower (match title with | none => "" | some s => s)) = rowTitleNorm title := by
  cases title with
  | none => rfl
  | some s => rfl

/-- Claim C1 (amended): the dedup loop classifies an item as new exactly
when no record of the PRE-RUN master store has an equal normalized title and
an equal trimmed link (the raw date text plays no role); items of the same
run are never compared against each other. -/
theorem c1_dedup_matches_store_only :
    (∀ (master : List Record) (now : String) (items : List Item),
        (processItems master now items).2 =
          (items.filter (fun it => !entry_exists master it.title it.link)).map mkJsonOf) ∧
    (∀ (master : List Record) (title link : Option String),
        entry_exists master title link = true ↔
          ∃ r, r ∈ master ∧ rowTitleNorm r.title = rowTitleNorm title ∧
            rowLinkStr r.link = pyStrip (pyOrStr link "")) := by
  constructor
  · intro master now items
    rw [processItems_eq]
  · intro master title link
    simp only [entry_exists]
    rw [List.any_eq_true]
    constructor
    · rintro ⟨r, hr, hc⟩
      rw [Bool.and_eq_true, beq_iff_eq, beq_iff_eq] at hc
      exact ⟨r, hr, hc.1.trans (queryTitleNorm_eq title), hc.2⟩
    · rintro ⟨r, hr, h1, h2⟩
      refine ⟨r, hr, ?_⟩
      rw [Bool.and_eq_true, beq_iff_eq, beq_iff_eq]
      exact ⟨h1.trans (queryTitleNorm_eq title).symm, h2⟩

-- ---------------------------------------------------------------------------
-- C2
-- ---------------------------------------------------------------------------

/-- Claim C2 (counterexample): "ran, nothing new" and "ran, persisted new
entries" share exit status 0, so the four terminal outcomes are NOT each
signaled with a distinct exit status: the same table against an empty store
persists a new entry and exits 0, and against a store already holding the
entry persists nothing and also exits 0. -/
theorem c2_success_outcomes_share_exit_zero :
    (mainRun (some [tblHello]) [] "ts").exitCode = 0 ∧
    (mainRun (some [tblHello]) [recHello] "ts").exitCode = 0 ∧
    (mainRun (some [tblHello]) [] "ts").newJson ≠ some [] ∧
    (mainRun (some [tblHello]) [recHello] "ts").newJson = some [] := by
  refine ⟨by decide, by decide, by decide, by decide⟩

/-- Claim C2 (amended): fetch failure exits 2, a missing listing table exits
3, and both successful outcomes exit 0 — infrastructure failure is
distinguishable from a run that worked, but the two success outcomes share
exit status 0. -/
theorem c2_exit_codes :
    (∀ (master : List Record) (now : String), (mainRun none master now).exitCode = 2) ∧
    (∀ (tables : List HtmlTable) (master : List Record) (now : String),
        find_first_populated_table tables = none →
        (mainRun (some tables) master now).exitCode = 3) ∧
    (∀ (tables : List HtmlTable) (tbl : HtmlTable) (master : List Record) (now : String),
        find_first_populated_table tables = some tbl →
        (mainRun (some tables) master now).exitCode = 0) := by
  refine ⟨fun master now => rfl, ?_, ?_⟩
  · intro tables master now h
    simp [mainRun, h]
  · intro tables tbl master now h
    cases he : (processItems master now
        ((extract_rows_from_table tbl MAX_ENTRIES).map buildItem)).1.isEmpty with
    | true => simp [mainRun, h, he]
    | false => simp [mainRun, h, he]

/-- Claim C2 (witness): the amended exit codes at concrete inputs. -/
theorem c2_exit_codes_witness :
    (mainRun none [] "ts").exitCode = 2 ∧
    (mainRun (some []) [] "ts").exitCode = 3 ∧
    (mainRun (some [tblHello]) [] "ts").exitCode = 0 :=
  ⟨c2_exit_codes.1 [] "ts",
   c2_exit_codes.2.1 [] [] "ts" rfl,
   c2_exit_codes.2.2 [tblHello] tblHello [] "ts" rfl⟩

-- ---------------------------------------------------------------------------
-- C3
-- ---------------------------------------------------------------------------

/-- Claim C3 (counterexample): a tuple with title, link and raw date text
all absent IS emitted (for a row whose sole anchor has neither an href nor
text), so the claimed invariant fails. -/
theorem c3_all_absent_tuple_emitted :
    ¬ (∀ t ∈ extract_rows_from_table [rowBlankAnchor] 10,
        t.title ≠ none ∨ t.link ≠ none ∨ t.date_text ≠ none) := by
  decide

theorem mkItemTuple_title_or_link (tr : Tr) (cur : Option String)
    (hne : tr.anchors ≠ []) (hb : anchorNonBlank tr = true) :
    (mkItemTuple tr cur).title ≠ none ∨ (mkItemTuple tr cur).link ≠ none := by
  cases ha : tr.anchors with
  | nil => exact absurd ha hne
  | cons a rest =>
    unfold anchorNonBlank at hb
    rw [ha] at hb
    simp only [List.head?] at hb
    rw [Bool.or_eq_true] at hb
    unfold mkItemTuple
    rw [ha]
    dsimp only
    cases hb with
    | inl h =>
      left
      rw [bne_iff_ne] at h
      simp [h]
    | inr h =>
      right
      rw [bne_iff_ne] at h
      simp [h]

/-- Claim C3 (amended): when every row's first anchor has either visible
text or a non-blank href, every emitted tuple has a title or a link; the
unconditional invariant fails only for rows whose first anchor has neither
(see the counterexample). -/
theorem c3_title_or_link_of_nonblank_anchor :
    ∀ (rows : List Tr) (cur : Option String) (count limit : Nat) (t : RowTuple),
      rows.all anchorNonBlank = true →
      t ∈ extractAux rows cur count limit →
      t.title ≠ none ∨ t.link ≠ none := by
  intro rows
  induction rows with
  | nil =>
    intro cur count limit t _ hm
    simp [extractAux] at hm
  | cons tr rest ih =>
    intro cur count limit t hall hm
    rw [List.all_cons, Bool.and_eq_true] at hall
    obtain ⟨h1, h2⟩ := hall
    unfold extractAux at hm
    by_cases hth : tr.hasTh
    · rw [if_pos hth] at hm
      exact ih cur count limit t h2 hm
    · rw [if_neg hth] at hm
      by_cases hae : tr.anchors.isEmpty
      · rw [if_pos hae] at hm
        cases hc : classifyNoAnchor tr with
        | some d =>
          rw [hc] at hm
          exact ih (some d) count limit t h2 hm
        | none =>
          rw [hc] at hm
          exact ih cur count limit t h2 hm
      · rw [if_neg hae] at hm
        have hne : tr.anchors ≠ [] := by
          intro hh
          rw [hh] at hae
          exact hae rfl
        dsimp only at hm
        by_cases hl : count + 1 ≥ limit
        · rw [if_pos hl] at hm
          rw [List.mem_singleton] at hm
          subst hm
          exact mkItemTuple_title_or_link tr cur hne h1
        · rw [if_neg hl] at hm
          rw [List.mem_cons] at hm
          cases hm with
          | inl he =>
            subst he
            exact mkItemTuple_title_or_link tr cur hne h1
          | inr hm2 => exact ih cur (count + 1) limit t h2 hm2

/-- Claim C3 (witness): the amended statement applied to a concrete row
whose anchor has text and an href. -/
theorem c3_title_or_link_of_nonblank_anchor_witness :
    (mkItemTuple rowHello none).title ≠ none ∨ (mkItemTuple rowHello none).link ≠ none :=
  c3_title_or_link_of_nonblank_anchor [rowHello] none 0 10 (mkItemTuple rowHello none)
    (by decide) (by decide)

-- ---------------------------------------------------------------------------
-- C5
-- ---------------------------------------------------------------------------

set_option maxRecDepth 10000 in
/-- Claim C5: the identity function is a pure function of (title, link,
date): repeated calls agree; titles equal up to case and whitespace
variation (equal lower-cased word lists) give the same digest; a change to
the exact link string or the rendered date string changes the hashed input
string (and, at concrete inputs, the digest itself). -/
theorem c5_identity_properties :
    (∀ (t l d : Option String), generate_id t l d = generate_id t l d) ∧
    (∀ (t1 t2 : String) (l d : Option String),
        pySplitWs (pyLower t1) = pySplitWs (pyLower t2) →
        generate_id (some t1) l d = generate_id (some t2) l d) ∧
    (∀ (t d : Option String) (l1 l2 : String), l1 ≠ l2 →
        idInput t (some l1) d ≠ idInput t (some l2) d) ∧
    (∀ (t l : Option String) (d1 d2 : String), d1 ≠ d2 →
        idInput t l (some d1) ≠ idInput t l (some d2)) ∧
    generate_id (some "t") (some "L1") (some "01-01-2024")
      ≠ generate_id (some "t") (some "L2") (some "01-01-2024") ∧
    generate_id (some "t") (some "L") (some "01-01-2024")
      ≠ generate_id (some "t") (some "L") (some "01-02-2024") := by
  refine ⟨fun t l d => rfl, ?_, ?_, ?_, by decide, by decide⟩
  · intro t1 t2 l d h
    unfold generate_id idInput
    rw [pyOrStr_some_empty, pyOrStr_some_empty]
    unfold normWs
    rw [h]
  · intro t d l1 l2 hne heq
    apply hne
    unfold idInput at heq
    rw [pyOrStr_some_empty, pyOrStr_some_empty] at heq
    have hd := congrArg String.data heq
    simp only [string_data_append] at hd
    exact string_of_data_eq
      (List.append_cancel_left (List.append_cancel_right (List.append_cancel_right hd)))
  · intro t l d1 d2 hne heq
    apply hne
    unfold idInput at heq
    rw [pyOrStr_some_empty, pyOrStr_some_empty] at heq
    have hd := congrArg String.data heq
    simp only [string_data_append] at hd
    exact string_of_data_eq (List.append_cancel_left hd)

/-- Claim C5 (witness): title insensitivity and link/date sensitivity at
concrete inputs. -/
theorem c5_identity_properties_witness :
    generate_id (some "  RBI  Update ") (some "L") (some "01-01-2024")
      = generate_id (some "rbi update") (some "L") (some "01-01-2024") ∧
    idInput (some "t") (some "L1") (some "d") ≠ idInput (some "t") (some "L2") (some "d") ∧
    idInput (some "t") (some "L") (some "d1") ≠ idInput (some "t") (some "L") (some "d2") :=
  ⟨c5_identity_properties.2.1 "  RBI  Update " "rbi update" (some "L") (some "01-01-2024")
      (by decide),
   c5_identity_properties.2.2.1 (some "t") (some "d") "L1" "L2" (by decide),
   c5_identity_properties.2.2.2.1 (some "t") (some "L") "d1" "d2" (by decide)⟩

-- ---------------------------------------------------------------------------
-- C6
-- ---------------------------------------------------------------------------

/-- Claim C6: a detected date-header row replaces the carried header date
without emitting a tuple; an item row scanned under a carried (non-empty)
header date always gets that date, whatever its cells or title contain; and
concretely a header followed by three item rows — one with a month fragment
in its title, one with a date-like cell — assigns the header date to all
three. -/
theorem c6_header_date_carry :
    (∀ (tr : Tr) (rest : List Tr) (cur : Option String) (count limit : Nat),
        tr.hasTh = false → tr.anchors = [] →
        looks_like_date tr.text = true → tr.text.length ≤ 40 →
        extractAux (tr :: rest) cur count limit = extractAux rest (some tr.text) count limit) ∧
    (∀ (tr : Tr) (d : String), tr.anchors ≠ [] → d ≠ "" →
        (mkItemTuple tr (some d)).date_text = some d) ∧
    extract_rows_from_table [hdrRow, itemRowA, itemRowB, itemRowC] 10
      = [⟨some "5 Jan 2026", some "A January 2024 report",
          some "https://www.rbi.org.in/Scripts/a.htm", none⟩,
         ⟨some "5 Jan 2026", some "B", some "https://www.rbi.org.in/Scripts/b.htm", none⟩,
         ⟨some "5 Jan 2026", some "C", some "https://www.rbi.org.in/Scripts/c.htm", none⟩] := by
  refine ⟨?_, ?_, by decide⟩
  · intro tr rest cur count limit hth hanc hld hlen
    have hc : classifyNoAnchor tr = some tr.text := by
      unfold classifyNoAnchor
      rw [if_pos (by simp [hld, hlen])]
    simp only [extractAux]
    rw [if_neg (by simp [hth]), if_pos (by simp [hanc]), hc]
  · intro tr d hne hd
    cases ha : tr.anchors with
    | nil => exact absurd ha hne
    | cons a rest =>
      unfold mkItemTuple
      rw [ha]
      dsimp only
      simp [itemDateText, pyTruthy, hd]

/-- Claim C6 (witness): the header step and the carry at concrete rows. -/
theorem c6_header_date_carry_witness :
    extractAux [hdrRow, itemRowA, itemRowB, itemRowC] none 0 10
      = extractAux [itemRowA, itemRowB, itemRowC] (some "5 Jan 2026") 0 10 ∧
    (mkItemTuple itemRowB (some "5 Jan 2026")).date_text = some "5 Jan 2026" :=
  ⟨c6_header_date_carry.1 hdrRow [itemRowA, itemRowB, itemRowC] none 0 10 rfl rfl
      (by decide) (by decide),
   c6_header_date_carry.2.1 itemRowB "5 Jan 2026" (by decide) (by decide)⟩

-- ---------------------------------------------------------------------------
-- C7
-- ---------------------------------------------------------------------------

/-- Claim C7: the new-entries artifact is written on every run: as an empty
array when the fetch fails or no listing table is found, and otherwise as
exactly the JSON items of the current run's new items (so also empty when
nothing is new). -/
theorem c7_new_entries_always_written :
    (∀ (master : List Record) (now : String), (mainRun none master now).newJson = some []) ∧
    (∀ (tables : List HtmlTable) (master : List Record) (now : String),
        find_first_populated_table tables = none →
        (mainRun (some tables) master now).newJson = some []) ∧
    (∀ (tables : List HtmlTable) (tbl : HtmlTable) (master : List Record) (now : String),
        find_first_populated_table tables = some tbl →
        (mainRun (some tables) master now).newJson =
          some ((((extract_rows_from_table tbl MAX_ENTRIES).map buildItem).filter
              (fun it => !entry_exists master it.title it.link)).map mkJsonOf)) := by
  refine ⟨fun master now => rfl, ?_, ?_⟩
  · intro tables master now h
    simp [mainRun, h]
  · intro tables tbl master now h
    have hp := processItems_eq master now ((extract_rows_from_table tbl MAX_ENTRIES).map buildItem)
    cases hf : ((extract_rows_from_table tbl MAX_ENTRIES).map buildItem).filter
        (fun it => !entry_exists master it.title it.link) with
    | nil => simp [mainRun, h, hp, hf]
    | cons x xs => simp [mainRun, h, hp, hf]

/-- Claim C7 (witness): the success case at a concrete table and store. -/
theorem c7_new_entries_always_written_witness :
    (mainRun (some [tblHello]) [] "ts").newJson =
      some ((((extract_rows_from_table tblHello MAX_ENTRIES).map buildItem).filter
          (fun it => !entry_exists [] it.title it.link)).map mkJsonOf) :=
  c7_new_entries_always_written.2.2 [tblHello] tblHello [] "ts" rfl

-- ---------------------------------------------------------------------------
-- C10
-- ---------------------------------------------------------------------------

theorem strLenAppend (a b : String) : (a ++ b).length = a.length + b.length := by
  show (a.data ++ b.data).length = a.data.length + b.data.length
  exact List.length_append _ _

theorem datePart_len_le (d : Option String) (h : dateLenOk d = true) :
    (pyOrStr d "no-date").length ≤ 10 := by
  cases d with
  | none => decide
  | some s =>
    simp only [dateLenOk] at h
    have hs := of_decide_eq_true h
    simp only [pyOrStr]
    split
    next => decide
    next => exact hs

/-- Claim C10: with the title absent the filename is the fixed default base
"rbi_press_release" followed by an underscore, the rendered date (or
"no-date"), and ".pdf"; for every title, and every date of the shape main
produces (at most 10 characters when present), the filename is the plain
untruncated concatenation and is at most 115 characters long — so the
160-character truncation branch is never taken. -/
theorem c10_default_base_and_length_bound :
    (∀ (d : Option String), dateLenOk d = true →
        make_pdf_filename_from_title_and_date none d
          = "rbi_press_release_" ++ pyOrStr d "no-date" ++ ".pdf") ∧
    (∀ (t d : Option String), dateLenOk d = true →
        make_pdf_filename_from_title_and_date t d
          = slugify_for_filename (pyOrStr t "rbi_press_release") 100 ++ "_" ++
            pyOrStr d "no-date" ++ ".pdf") ∧
    (∀ (t d : Option String), dateLenOk d = true →
        (make_pdf_filename_from_title_and_date t d).length ≤ 115) := by
  have hlen : ∀ (t d : Option String), dateLenOk d = true →
      (slugify_for_filename (pyOrStr t "rbi_press_release") 100 ++ "_" ++
        pyOrStr d "no-date" ++ ".pdf").length ≤ 115 := by
    intro t d hd
    rw [strLenAppend, strLenAppend, strLenAppend]
    have h1 := slug_len_le (pyOrStr t "rbi_press_release") 100
    have h2 := datePart_len_le d hd
    have h3 : ("_" : String).length = 1 := rfl
    have h4 : (".pdf" : String).length = 4 := rfl
    omega
  have hmain : ∀ (t d : Option String), dateLenOk d = true →
      make_pdf_filename_from_title_and_date t d
        = slugify_for_filename (pyOrStr t "rbi_press_release") 100 ++ "_" ++
          pyOrStr d "no-date" ++ ".pdf" := by
    intro t d hd
    unfold make_pdf_filename_from_title_and_date
    dsimp only
    rw [if_neg (by have := hlen t d hd; omega)]
  refine ⟨?_, hmain, ?_⟩
  · intro d hd
    rw [hmain none d hd]
    have hs : slugify_for_filename (pyOrStr none "rbi_press_release") 100
        = "rbi_press_release" := by decide
    rw [hs]
    have harr : ("rbi_press_release" : String) ++ "_" = "rbi_press_release_" := by decide
    rw [harr]
  · intro t d hd
    rw [hmain t d hd]
    exact hlen t d hd

/-- Claim C10 (witness): the default base shape and the length bound at
concrete dates and titles. -/
theorem c10_default_base_and_length_bound_witness :
    make_pdf_filename_from_title_and_date none (some "01-05-2025")
      = "rbi_press_release_" ++ pyOrStr (some "01-05-2025") "no-date" ++ ".pdf" ∧
    (make_pdf_filename_from_title_and_date (some "Hi!") (some "01-05-2025")).length ≤ 115 :=
  ⟨c10_default_base_and_length_bound.1 (some "01-05-2025") (by decide),
   c10_default_base_and_length_bound.2.2 (some "Hi!") (some "01-05-2025") (by decide)⟩
